import Mathlib

/-!
# Verification of the Eolia climate client (`climate.py`)

Shallow embedding of the session/state logic of the `hassio-eolia`
repository.  The repository contains two near-duplicate implementations:

* `src/climate.py` (legacy platform, `requests`-based, integer temperature
  bounds), and
* `src/custom_components/eolia/climate.py` (current integration,
  `aiohttp`-based, float temperature bounds `16.0` / `30.0`).

The two share the same logic; definitions below note the file and lines they
embed.  Python scalar values appearing in the device JSON are modelled by
`JVal`; Python `==`, truthiness and `str()` are modelled by `pyEq`,
`pyTruthy` and `pyStr`.  JSON dictionaries are modelled as association lists
(`List (String × JVal)`) with first-match lookup, which agrees with Python
dict semantics because `dictSet` keeps keys unique and preserves insertion
order.  Network calls are not performed; the functions below compute the
request payloads and the state transitions caused by responses, which is
what the claims are about.  JSON arrays and nested objects as field values
are not modelled: no embedded code path inspects such values.
-/

/-- A Python scalar value as it occurs after `json.loads`: `None`, `bool`,
`int`, `float` (modelled exactly as a rational, which is faithful for every
decimal literal the vendor API exchanges) or `str`. -/
inductive JVal where
  | jnull
  | jbool (b : Bool)
  | jint (n : Int)
  | jfloat (q : ℚ)
  | jstr (s : String)
  deriving DecidableEq

/-- The numeric value of a Python object, if it is numeric.  Python's `bool`
is a subclass of `int`: `True` is the number 1 and `False` the number 0. -/
def pyNum : JVal → Option ℚ
  | .jbool b => some (if b then 1 else 0)
  | .jint n => some (n : ℚ)
  | .jfloat q => some q
  | _ => none

/-- Python `==` on scalars: numbers (`bool`/`int`/`float`) compare by value,
strings compare by content, `None == None`, everything else is unequal. -/
def pyEq (a b : JVal) : Bool :=
  match pyNum a, pyNum b with
  | some x, some y => decide (x = y)
  | _, _ =>
    match a, b with
    | .jstr s, .jstr t => s == t
    | .jnull, .jnull => true
    | _, _ => false

/-- Python truthiness: `None` and zero and the empty string are falsy. -/
def pyTruthy : JVal → Bool
  | .jnull => false
  | .jbool b => b
  | .jint n => decide (n ≠ 0)
  | .jfloat q => decide (q ≠ 0)
  | .jstr s => decide (s ≠ "")

/-- Value of a list of decimal digit characters; `none` on a non-digit.
An empty list yields `some 0` (callers rule the empty case out). -/
def parseNatDigits (cs : List Char) : Option Nat :=
  cs.foldl
    (fun acc c =>
      acc.bind fun n => if c.isDigit then some (10 * n + (c.toNat - 48)) else none)
    (some 0)

/-- Python `float(s)` on a plain decimal string (optional sign, digits,
optional single decimal point).  Exponent notation and `inf`/`nan` are not
modelled; no claim exercises them. -/
def parseFloat (s : String) : Option ℚ :=
  let cs := s.trim.toList
  let p := match cs with
    | '-' :: r => ((-1 : ℚ), r)
    | '+' :: r => ((1 : ℚ), r)
    | r => ((1 : ℚ), r)
  let sgn := p.1
  let cs2 := p.2
  if cs2.isEmpty then none
  else
    let intPart := cs2.takeWhile (fun c => c ≠ '.')
    let rest := cs2.dropWhile (fun c => c ≠ '.')
    match rest with
    | [] => (parseNatDigits intPart).map fun n => sgn * n
    | _ :: fracPart =>
      if fracPart.contains '.' then none
      else if intPart.isEmpty && fracPart.isEmpty then none
      else
        (parseNatDigits intPart).bind fun ip =>
          (parseNatDigits fracPart).map fun fp =>
            sgn * ((ip : ℚ) + (fp : ℚ) / (10 : ℚ) ^ fracPart.length)

/-- Python `float(x)`: numbers coerce (`True` → 1.0, `False` → 0.0), strings
parse, `float(None)` raises (`none`). -/
def pyFloat : JVal → Option ℚ
  | .jbool b => some (if b then 1 else 0)
  | .jint n => some (n : ℚ)
  | .jfloat q => some q
  | .jstr s => parseFloat s
  | .jnull => none

/-- Decimal digits of the fraction `rem / den` (with `rem < den`), most
significant first, up to the given number of digits, by long division.
A float that is a finite decimal prints exactly (Python's `repr` is
shortest-roundtrip, which on the finite decimals this client exchanges is
the decimal itself). -/
def fracDigits : Nat → Nat → Nat → List Nat
  | 0, _, _ => []
  | fuel + 1, rem, den =>
    if rem = 0 then []
    else
      let r10 := rem * 10
      r10 / den :: fracDigits fuel (r10 % den) den

/-- Python `str` of a nonnegative float: integer part, a dot, then the
fractional digits (`"0"` when the value is integral, as in `str(16.0)`). -/
def floatStrNN (q : ℚ) : String :=
  let n := q.num.toNat
  let ds := fracDigits 17 (n % q.den) q.den
  let frac := if ds.isEmpty then "0" else String.join (ds.map fun d => toString d)
  toString (n / q.den) ++ "." ++ frac

/-- Python `str` of a float. -/
def floatStr (q : ℚ) : String :=
  if q < 0 then "-" ++ floatStrNN (-q) else floatStrNN q

/-- Python `str(x)` on the scalar values. -/
def pyStr : JVal → String
  | .jnull => "None"
  | .jbool true => "True"
  | .jbool false => "False"
  | .jint n => toString n
  | .jfloat q => floatStr q
  | .jstr s => s

/-- First-match lookup in an association-list dictionary. -/
def dictLookup {α : Type} (l : List (String × α)) (k : String) : Option α :=
  match l with
  | [] => none
  | p :: rest => if p.1 = k then some p.2 else dictLookup rest k

/-- Python `d.get(k)`: the value, or `None` when the key is absent. -/
def dictGet (l : List (String × JVal)) (k : String) : JVal :=
  (dictLookup l k).getD .jnull

/-- Python `k in d`. -/
def containsKey {α : Type} (l : List (String × α)) (k : String) : Bool :=
  (dictLookup l k).isSome

/-- Python `d[k] = v`: replace the value in place if the key exists
(preserving its position, as dicts preserve insertion order), else append. -/
def dictSet {α : Type} (l : List (String × α)) (k : String) (v : α) :
    List (String × α) :=
  match l with
  | [] => [(k, v)]
  | p :: rest => if p.1 = k then (k, v) :: rest else p :: dictSet rest k v

/-- `get_key` (src/climate.py lines 60-64, custom_components climate.py
lines 77-82): the first key of the table whose value `==` the given value,
or Python `None` when no value matches. -/
def get_key (d : List (JVal × JVal)) (val : JVal) : JVal :=
  match d with
  | [] => .jnull
  | p :: rest => if pyEq val p.2 then p.1 else get_key rest val

/-- Python `d[k]` on a lookup table (used as `modeTable[k]` in the spec). -/
def tableGet (d : List (JVal × JVal)) (k : JVal) : Option JVal :=
  match d with
  | [] => none
  | p :: rest => if pyEq k p.1 then some p.2 else tableGet rest k

/-- `_HVAC_MODES` (custom_components climate.py lines 25-32; the legacy
src/climate.py lines 19-26 lists the same six pairs in another order):
vendor operation-mode key → Home Assistant `HVACMode` string value. -/
def HVAC_MODES : List (JVal × JVal) :=
  [(.jstr "Auto", .jstr "auto"),
   (.jstr "Nanoe", .jstr "fan_only"),
   (.jstr "Cooling", .jstr "cool"),
   (.jstr "Dehumidifying", .jstr "dry"),
   (.jstr "Heating", .jstr "heat"),
   (.jstr "Stop", .jstr "off")]

/-- `_PRESET_MODES` (custom_components climate.py lines 34-47): vendor key →
localized label. -/
def PRESET_MODES : List (JVal × JVal) :=
  [(.jstr "Auto", .jstr "オート"),
   (.jstr "Nanoe", .jstr "ナノイー送風"),
   (.jstr "Blast", .jstr "送風"),
   (.jstr "Cooling", .jstr "冷房"),
   (.jstr "Dehumidifying", .jstr "ドライ"),
   (.jstr "Heating", .jstr "暖房"),
   (.jstr "CoolDehumidifying", .jstr "冷房除湿"),
   (.jstr "ClothesDryer", .jstr "衣類乾燥"),
   (.jstr "KeepMode", .jstr "ダブル温度設定"),
   (.jstr "Cleaning", .jstr "おそうじ"),
   (.jstr "NanoexCleaning", .jstr "おでかけクリーン"),
   (.jstr "Stop", .jstr "オフ")]

/-- `_FAN_MODES` (both files): integer vendor code → localized label. -/
def FAN_MODES : List (JVal × JVal) :=
  [(.jint 0, .jstr "自動"),
   (.jint 2, .jstr "1"),
   (.jint 3, .jstr "2"),
   (.jint 4, .jstr "3"),
   (.jint 5, .jstr "4")]

/-- `_SWING_MODES` (both files): vendor direction token → localized label. -/
def SWING_MODES : List (JVal × JVal) :=
  [(.jstr "auto", .jstr "自動"),
   (.jstr "to_left", .jstr "左"),
   (.jstr "nearby_left", .jstr "ちょっと左"),
   (.jstr "front", .jstr "中央"),
   (.jstr "nearby_right", .jstr "ちょっと右"),
   (.jstr "to_right", .jstr "右")]

/-- The mutable fields of `EoliaClimate` the claims are about:
`self._json` (the cached `RawDeviceState`), `self._temp` (cached target
temperature), `self._operation_token`, and `self._appliance_id` (already
percent-encoded at construction; the encoding itself is not modelled). -/
structure CState where
  js : List (String × JVal)
  temp : JVal
  token : JVal
  applianceId : String
  deriving DecidableEq

/-- The state right after `__init__` (custom_components climate.py lines
98-101): empty JSON cache, target `25.0`, no operation token. -/
def initState (applianceId : String) : CState :=
  { js := [], temp := .jfloat 25, token := .jnull, applianceId := applianceId }

/-- The field whitelist of `_get_json` (src/climate.py lines 224-237). -/
def whitelistKeys : List String :=
  ["nanoex", "operation_status", "airquality", "wind_volume", "temperature",
   "operation_mode", "wind_direction", "timer_value", "air_flow",
   "wind_direction_horizon"]

/-- `_get_json` (src/climate.py lines 223-242): filter the cached JSON down
to the whitelist, then, if the cached operation token is truthy, add
`operation_token` and `appliance_id`.  (The duplicate in
custom_components climate.py lines 255-272 builds the same filtered dict
but mistakenly returns the `json` module object instead; spec §9 records
that the filtered payload is the authoritative behaviour.) -/
def get_json (s : CState) : List (String × JVal) :=
  let filtered := s.js.filter fun item => whitelistKeys.contains item.1
  if pyTruthy s.token then
    dictSet (dictSet filtered "operation_token" s.token) "appliance_id"
      (.jstr s.applianceId)
  else filtered

/-- `_set_json` (src/climate.py lines 244-249): cache the operation token if
the response carries the key; replace the cached target temperature with the
response's `temperature` unless that value `== 0`; replace the cached JSON
wholesale. -/
def set_json (s : CState) (resp : List (String × JVal)) : CState :=
  let token2 := if containsKey resp "operation_token"
                then dictGet resp "operation_token" else s.token
  let temp2 := if pyEq (dictGet resp "temperature") (.jint 0)
               then s.temp else dictGet resp "temperature"
  { s with token := token2, temp := temp2, js := resp }

/-- `update` (src/climate.py lines 172-178): a refresh feeds the GET
response body through `_set_json`. -/
def update_state (s : CState) (resp : List (String × JVal)) : CState :=
  set_json s resp

/-- The mode list of `_set_put`'s clamping branch (custom_components
climate.py lines 237-242). -/
def heatCoolModes : List JVal :=
  [.jstr "Heating", .jstr "Cooling", .jstr "Auto", .jstr "CoolDehumidifying"]

/-- The state mutation `_set_put` performs before issuing the PUT
(custom_components climate.py lines 235-247; the legacy src/climate.py
lines 208-215 differs only in using the integer bounds 16/30 and omitting
the `float(...)` coercion): force the JSON `temperature` field to `"0"`;
if `self._json["operation_mode"]` is one of the four set-point modes, clamp
`self._temp` to `[16.0, 30.0]` and write `str(self._temp)` into the field.
`none` models a raised exception (`KeyError` when `operation_mode` is
absent, `TypeError`/`ValueError` when `float(self._temp)` fails), in which
case no request is issued. -/
def set_put_pre (s : CState) : Option CState :=
  let j1 := dictSet s.js "temperature" (.jstr "0")
  match dictLookup j1 "operation_mode" with
  | none => none
  | some m =>
    if heatCoolModes.any (fun x => pyEq m x) then
      match pyFloat s.temp with
      | none => none
      | some f =>
        let t1 := if f < 16 then JVal.jfloat 16 else s.temp
        match pyFloat t1 with
        | none => none
        | some f1 =>
          let t2 := if f1 > 30 then JVal.jfloat 30 else t1
          some { s with js := dictSet j1 "temperature" (.jstr (pyStr t2)), temp := t2 }
    else
      some { s with js := j1 }

/-- The body `_set_put` sends with the PUT: `_get_json()` evaluated on the
mutated state (custom_components climate.py lines 248-253). -/
def set_put_payload (s : CState) : Option (List (String × JVal)) :=
  (set_put_pre s).map get_json

/-- A whole `_set_put` round trip: mutate the state, send the payload, feed
the PUT response through `_set_json`. -/
def set_put_step (s : CState) (resp : List (String × JVal)) : Option CState :=
  (set_put_pre s).map fun s2 => set_json s2 resp

/-- The cache mutation of `set_hvac_mode` before it calls `_set_put`
(custom_components climate.py lines 207-213; `HVACMode.OFF` is the string
`"off"`). -/
def set_hvac_mode_pre (s : CState) (hvac_mode : JVal) : CState :=
  if pyEq hvac_mode (.jstr "off") then
    { s with js := dictSet s.js "operation_status" (.jbool false) }
  else
    let j1 := dictSet s.js "operation_status" (.jbool true)
    { s with js := dictSet j1 "operation_mode" (get_key HVAC_MODES hvac_mode) }

/-- The cache mutation of `set_fan_mode` before it calls `_set_put`
(custom_components climate.py lines 223-225; src/climate.py lines 196-198):
store `get_key(_FAN_MODES, fan_mode)` — which is Python `None` when no
table value matches — into `wind_volume`. -/
def set_fan_mode_pre (s : CState) (fan_mode : JVal) : CState :=
  { s with js := dictSet s.js "wind_volume" (get_key FAN_MODES fan_mode) }

/-- The payload a `set_fan_mode` call sends. -/
def set_fan_mode_payload (s : CState) (fan_mode : JVal) :
    Option (List (String × JVal)) :=
  set_put_payload (set_fan_mode_pre s fan_mode)

/-- The cache mutation of `set_swing_mode` (custom_components climate.py
lines 227-229). -/
def set_swing_mode_pre (s : CState) (swing_mode : JVal) : CState :=
  { s with js := dictSet s.js "wind_direction_horizon" (get_key SWING_MODES swing_mode) }

/-- `set_temperature` stores the requested value unclamped
(custom_components climate.py lines 231-233); clamping happens in
`_set_put`. -/
def set_temperature_pre (s : CState) (t : JVal) : CState :=
  { s with temp := t }

/-- Attribute values of `extra_state_attributes`: the scalar entries, plus
the raw cached JSON exposed under `"_json"`. -/
inductive AttrVal where
  | scalar (v : JVal)
  | raw (js : List (String × JVal))
  deriving DecidableEq

/-- `extra_state_attributes` (custom_components climate.py lines 188-197;
src/climate.py lines 161-170): the `outside_temp` attribute is `None` when
the cached field `== 999`, otherwise the field's value. -/
def extra_state_attributes (s : CState) : List (String × AttrVal) :=
  let outside_temp := dictGet s.js "outside_temp"
  [("inside_humidity", .scalar (dictGet s.js "inside_humidity")),
   ("inside_temp", .scalar (dictGet s.js "inside_temp")),
   ("outside_temp", .scalar (if pyEq outside_temp (.jint 999) then .jnull else outside_temp)),
   ("timer_value", .scalar (dictGet s.js "timer_value")),
   ("_json", .raw s.js)]

/-- `_get` (src/climate.py lines 260-266; `_put` lines 268-275 and `_post`
lines 251-258 have the identical shape): issue the request; on status 401,
call `self._login()` and recurse.  `statuses i` is the status the server
returns to the `i`-th attempt of this call.  The first component is the
status finally returned (`none` when the recursion has not terminated
within `fuel` attempts), the second counts the `_login()` calls performed.
The re-login itself goes through `_post`, which applies the same unbounded
recursion to the login endpoint; it is modelled here as an opaque counted
action. -/
def getTrace (statuses : Nat → Nat) : Nat → Nat → Option Nat × Nat
  | 0, _ => (none, 0)
  | fuel + 1, i =>
    if statuses i = 401 then
      let r := getTrace statuses fuel (i + 1)
      (r.1, r.2 + 1)
    else (some (statuses i), 0)

/-- A server whose session is persistently invalid: every attempt gets 401. -/
def always401 : Nat → Nat := fun _ => 401

/-- A server that returns 401 to the first three attempts, then 200. -/
def statuses401x3 : Nat → Nat := fun i => if i < 3 then 401 else 200

/-! ## Dictionary lemmas -/

theorem dictLookup_dictSet_self {α : Type} (l : List (String × α)) (k : String) (v : α) :
    dictLookup (dictSet l k v) k = some v := by
  induction l with
  | nil => simp [dictSet, dictLookup]
  | cons p rest ih =>
    by_cases h : p.1 = k
    · simp [dictSet, dictLookup, h]
    · simp [dictSet, dictLookup, h, ih]

theorem dictLookup_dictSet_ne {α : Type} (l : List (String × α)) (k k2 : String) (v : α)
    (h : k ≠ k2) :
    dictLookup (dictSet l k v) k2 = dictLookup l k2 := by
  induction l with
  | nil => simp [dictSet, dictLookup, h]
  | cons p rest ih =>
    by_cases hp : p.1 = k
    · simp [dictSet, dictLookup, hp, h]
    · simp [dictSet, dictLookup, hp, ih]

theorem containsKey_dictSet_ne {α : Type} (l : List (String × α)) (k k2 : String) (v : α)
    (h : k ≠ k2) :
    containsKey (dictSet l k v) k2 = containsKey l k2 := by
  simp [containsKey, dictLookup_dictSet_ne l k k2 v h]

theorem dictLookup_filter_keep {α : Type} (pred : String → Bool)
    (l : List (String × α)) (k : String) (h : pred k = true) :
    dictLookup (l.filter fun it => pred it.1) k = dictLookup l k := by
  induction l with
  | nil => simp [dictLookup]
  | cons p rest ih =>
    by_cases hp : pred p.1 = true
    · by_cases hk : p.1 = k
      · simp [List.filter, hp, dictLookup, hk, h]
      · simp [List.filter, hp, dictLookup, hk, ih]
    · have hk : p.1 ≠ k := fun he => hp (he ▸ h)
      simp [List.filter, hp, dictLookup, hk, ih]

theorem dictLookup_filter_drop {α : Type} (pred : String → Bool)
    (l : List (String × α)) (k : String) (h : pred k = false) :
    dictLookup (l.filter fun it => pred it.1) k = none := by
  induction l with
  | nil => simp [dictLookup]
  | cons p rest ih =>
    by_cases hp : pred p.1 = true
    · have hk : p.1 ≠ k := fun he => by rw [he, h] at hp; exact Bool.false_ne_true hp
      simp [List.filter, hp, dictLookup, hk, ih]
    · simp [List.filter, hp, dictLookup, ih]

theorem containsKey_filter {α : Type} (pred : String → Bool)
    (l : List (String × α)) (k : String)
    (h : containsKey (l.filter fun it => pred it.1) k = true) : pred k = true := by
  by_contra hfalse
  have h0 : pred k = false := by
    cases hc : pred k
    · rfl
    · exact absurd hc hfalse
  rw [containsKey, dictLookup_filter_drop pred l k h0] at h
  simp at h

/-! ## Structural lemmas about the write protocol -/

theorem set_put_pre_frame (s s1 : CState) (hpre : set_put_pre s = some s1)
    (k : String) (hk : k ≠ "temperature") :
    dictLookup s1.js k = dictLookup s.js k ∧ s1.token = s.token
      ∧ s1.applianceId = s.applianceId := by
  simp only [set_put_pre] at hpre
  cases hm : dictLookup (dictSet s.js "temperature" (.jstr "0")) "operation_mode" with
  | none => simp [hm] at hpre
  | some m =>
    simp only [hm] at hpre
    by_cases hb : (heatCoolModes.any fun x => pyEq m x) = true
    · simp only [hb, if_true] at hpre
      cases hf : pyFloat s.temp with
      | none => simp [hf] at hpre
      | some f =>
        simp only [hf] at hpre
        cases hf1 : pyFloat (if f < 16 then JVal.jfloat 16 else s.temp) with
        | none => simp [hf1] at hpre
        | some f1 =>
          simp only [hf1, Option.some.injEq] at hpre
          obtain rfl := hpre
          refine ⟨?_, rfl, rfl⟩
          rw [dictLookup_dictSet_ne _ _ _ _ (Ne.symm hk),
              dictLookup_dictSet_ne _ _ _ _ (Ne.symm hk)]
    · simp only [hb, Bool.false_eq_true, if_false, Option.some.injEq] at hpre
      obtain rfl := hpre
      refine ⟨?_, rfl, rfl⟩
      rw [dictLookup_dictSet_ne _ _ _ _ (Ne.symm hk)]

theorem get_json_lookup_whitelisted (s : CState) (k : String)
    (hw : whitelistKeys.contains k = true)
    (h1 : k ≠ "operation_token") (h2 : k ≠ "appliance_id") :
    dictLookup (get_json s) k = dictLookup s.js k := by
  simp only [get_json]
  by_cases ht : pyTruthy s.token = true
  · rw [if_pos ht, dictLookup_dictSet_ne _ _ _ _ (Ne.symm h2),
        dictLookup_dictSet_ne _ _ _ _ (Ne.symm h1),
        dictLookup_filter_keep _ _ _ hw]
  · rw [if_neg ht, dictLookup_filter_keep _ _ _ hw]

theorem set_put_pre_spec (s s1 : CState) (m : JVal)
    (hm : dictLookup s.js "operation_mode" = some m)
    (hpre : set_put_pre s = some s1) :
    ((heatCoolModes.any fun x => pyEq m x) = false →
        s1.temp = s.temp ∧ dictLookup s1.js "temperature" = some (.jstr "0"))
  ∧ ((heatCoolModes.any fun x => pyEq m x) = true →
        ∃ f, pyFloat s.temp = some f ∧
          s1.temp = (if f < 16 then JVal.jfloat 16
                     else if f > 30 then JVal.jfloat 30 else s.temp) ∧
          dictLookup s1.js "temperature" = some (.jstr (pyStr s1.temp))) := by
  have hm1 : dictLookup (dictSet s.js "temperature" (.jstr "0")) "operation_mode"
      = some m := by
    rw [dictLookup_dictSet_ne _ _ _ _ (by decide : "temperature" ≠ "operation_mode")]
    exact hm
  simp only [set_put_pre, hm1] at hpre
  by_cases hb : (heatCoolModes.any fun x => pyEq m x) = true
  · simp only [hb, if_true] at hpre
    cases hf : pyFloat s.temp with
    | none => simp [hf] at hpre
    | some f =>
      simp only [hf] at hpre
      constructor
      · intro hfalse
        rw [hfalse] at hb
        exact absurd hb (by simp)
      · intro _
        by_cases hlt : f < 16
        · rw [if_pos hlt] at hpre
          simp only [pyFloat, Option.some.injEq] at hpre
          rw [if_neg (by norm_num : ¬((16 : ℚ) > 30))] at hpre
          obtain rfl := hpre
          refine ⟨f, rfl, ?_, ?_⟩
          · simp [hlt]
          · rw [dictLookup_dictSet_self]
        · rw [if_neg hlt] at hpre
          simp only [hf, Option.some.injEq] at hpre
          obtain rfl := hpre
          refine ⟨f, rfl, ?_, ?_⟩
          · simp [hlt]
          · rw [dictLookup_dictSet_self]
  · simp only [hb, Bool.false_eq_true, if_false, Option.some.injEq] at hpre
    obtain rfl := hpre
    constructor
    · intro _
      exact ⟨rfl, dictLookup_dictSet_self _ _ _⟩
    · intro htrue
      exact absurd htrue hb

theorem pyEq_jint_zero_iff (v : JVal) :
    pyEq v (.jint 0) = true ↔ (v = .jint 0 ∨ v = .jfloat 0 ∨ v = .jbool false) := by
  cases v with
  | jnull => decide
  | jbool b => cases b <;> decide
  | jint n => simp [pyEq, pyNum]
  | jfloat q => simp [pyEq, pyNum]
  | jstr t => simp [pyEq, pyNum]

/-! ## Claim theorems -/

/-- **C7** (confirmed): for every vendor key `k` in the HVAC mode table,
looking up the domain value `modeTable[k]` and then reverse-looking it up
with `get_key` yields `k` again — the table is injective, so the reverse
lookup round-trips on all six entries. -/
theorem c7_mode_table_roundtrip :
    HVAC_MODES.all
      (fun p => decide (tableGet HVAC_MODES p.1 = some p.2
                        ∧ get_key HVAC_MODES p.2 = p.1)) = true := by decide

/-- **C8** (confirmed): the normalized `outside_temp` attribute exposed to
the host is `None` when the cached `outside_temp` field equals the integer
999, and is the field's value unchanged for every other integer value. -/
theorem c8_outside_temperature_sentinel (s : CState) (n : Int) :
    dictLookup
        (extra_state_attributes { s with js := dictSet s.js "outside_temp" (.jint n) })
        "outside_temp"
      = some (.scalar (if n = 999 then JVal.jnull else .jint n)) := by
  have hget : dictGet (dictSet s.js "outside_temp" (.jint n)) "outside_temp"
      = .jint n := by
    simp [dictGet, dictLookup_dictSet_self]
  by_cases h : n = 999
  · subst h
    simp [extra_state_attributes, dictLookup, hget, pyEq, pyNum]
  · simp [extra_state_attributes, dictLookup, hget, pyEq, pyNum, h]
    exact_mod_cast h

/-- **C1** (code bug): the 401 handler of `_get` (and the identically-shaped
`_put`/`_post`) is not bounded at one retry.  On every 401 it performs a
re-login and retries recursively: against a server that persistently
answers 401 the call never completes and never surfaces an `AuthError`
(first conjunct — within any number `fuel` of attempts the call is still
unresolved and has performed one login per attempt, so the login count
grows without bound), and against a server answering 401 to the first
three attempts the code performs three logins and four requests and then
returns the fourth response, instead of failing after the second 401
(second conjunct). -/
theorem c1_unbounded_retry_on_401 :
    (∀ fuel i, getTrace always401 fuel i = (none, fuel))
  ∧ getTrace statuses401x3 10 0 = (some 200, 3) := by
  constructor
  · intro fuel
    induction fuel with
    | zero => intro i; rfl
    | succ fuel ih => intro i; simp [getTrace, always401, ih]
  · decide

/-- **C2** (confirmed): every key of the write payload built by `_get_json`
is inside the fixed ten-key whitelist, except that when the cached
operation token is truthy the two keys `operation_token` and `appliance_id`
may additionally appear — extra/unknown fields cached in `RawDeviceState`
are never forwarded. -/
theorem c2_payload_whitelisted (s : CState) (k : String)
    (h : containsKey (get_json s) k = true) :
    whitelistKeys.contains k = true
      ∨ (pyTruthy s.token = true ∧ (k = "operation_token" ∨ k = "appliance_id")) := by
  simp only [get_json] at h
  by_cases ht : pyTruthy s.token = true
  · rw [if_pos ht] at h
    by_cases hk2 : k = "appliance_id"
    · exact Or.inr ⟨ht, Or.inr hk2⟩
    by_cases hk1 : k = "operation_token"
    · exact Or.inr ⟨ht, Or.inl hk1⟩
    · rw [containsKey, dictLookup_dictSet_ne _ _ _ _ (Ne.symm hk2),
          dictLookup_dictSet_ne _ _ _ _ (Ne.symm hk1)] at h
      exact Or.inl (containsKey_filter _ _ _ h)
  · rw [if_neg ht] at h
    exact Or.inl (containsKey_filter _ _ _ h)

/-- Witness for C2: a cached state holding the unknown server field
`mystery_field` yields a payload that contains `operation_mode` (whitelisted)
and, as the theorem shows for every key the payload contains, nothing
outside the whitelist; the hypotheses are discharged on this input. -/
theorem c2_payload_whitelisted_witness :
    containsKey
        (get_json { js := [("operation_mode", .jstr "Heating"), ("mystery_field", .jstr "x")],
                    temp := .jfloat 25, token := .jnull, applianceId := "A" })
        "operation_mode" = true
  ∧ (whitelistKeys.contains "operation_mode" = true
      ∨ (pyTruthy (JVal.jnull) = true
          ∧ ("operation_mode" = "operation_token" ∨ "operation_mode" = "appliance_id"))) :=
  ⟨by decide,
   c2_payload_whitelisted
     { js := [("operation_mode", .jstr "Heating"), ("mystery_field", .jstr "x")],
       temp := .jfloat 25, token := .jnull, applianceId := "A" }
     "operation_mode" (by decide)⟩

/-- **C4** (counterexample): a response can carry an `operation_token` that
no subsequent write payload includes.  Processing a response with
`operation_token: ""` caches the empty-string token, but because the
forwarding guard is Python truthiness (`if self._operation_token:`), the
next write payload omits both `operation_token` and `appliance_id`,
refuting the claim as stated. -/
theorem c4_empty_token_counterexample :
    containsKey [("operation_token", JVal.jstr ""), ("operation_mode", JVal.jstr "Nanoe")]
        "operation_token" = true
  ∧ (set_json (initState "A")
        [("operation_token", .jstr ""), ("operation_mode", .jstr "Nanoe")]).token
      = .jstr ""
  ∧ set_put_payload
        (set_json (initState "A")
          [("operation_token", .jstr ""), ("operation_mode", .jstr "Nanoe")])
      = some [("operation_mode", .jstr "Nanoe"), ("temperature", .jstr "0")]
  ∧ containsKey [("operation_mode", JVal.jstr "Nanoe"), ("temperature", JVal.jstr "0")]
        "operation_token" = false
  ∧ containsKey [("operation_mode", JVal.jstr "Nanoe"), ("temperature", JVal.jstr "0")]
        "appliance_id" = false := by decide

/-- **C4** (amended): processing a response replaces the cached operation
token exactly when the response carries the `operation_token` key (and
keeps it otherwise); a write payload includes `operation_token` (with the
cached value) and `appliance_id` exactly when the cached token is truthy —
so after the most recent response carrying a truthy token `t`, write
payloads include `operation_token = t` and `appliance_id`, while before any
token is received, or when the latest received token is falsy (e.g. the
empty string), both fields are omitted. -/
theorem c4_amended_token_propagation (s : CState) (resp : List (String × JVal)) :
    (containsKey resp "operation_token" = true →
        (set_json s resp).token = dictGet resp "operation_token")
  ∧ (containsKey resp "operation_token" = false → (set_json s resp).token = s.token)
  ∧ (pyTruthy s.token = true →
        dictLookup (get_json s) "operation_token" = some s.token
      ∧ dictLookup (get_json s) "appliance_id" = some (.jstr s.applianceId))
  ∧ (pyTruthy s.token = false →
        containsKey (get_json s) "operation_token" = false
      ∧ containsKey (get_json s) "appliance_id" = false) := by
  refine ⟨?_, ?_, ?_, ?_⟩
  · intro h; simp [set_json, h]
  · intro h; simp [set_json, h]
  · intro ht
    simp only [get_json, if_pos ht]
    constructor
    · rw [dictLookup_dictSet_ne _ _ _ _ (by decide : "appliance_id" ≠ "operation_token"),
          dictLookup_dictSet_self]
    · rw [dictLookup_dictSet_self]
  · intro ht
    have ht2 : ¬ pyTruthy s.token = true := by simp [ht]
    simp only [get_json, if_neg ht2]
    constructor
    · rw [containsKey, dictLookup_filter_drop _ _ _
          (by decide : whitelistKeys.contains "operation_token" = false)]
      rfl
    · rw [containsKey, dictLookup_filter_drop _ _ _
          (by decide : whitelistKeys.contains "appliance_id" = false)]
      rfl

/-- Witness for the amended C4: a response carrying `operation_token: "abc"`
caches that token, and a state holding the truthy token `"abc"` produces a
payload containing it; the hypotheses are discharged on these inputs. -/
theorem c4_amended_token_propagation_witness :
    (set_json (initState "A") [("operation_token", JVal.jstr "abc")]).token = .jstr "abc"
  ∧ dictLookup
        (get_json { js := [], temp := .jfloat 25, token := .jstr "abc", applianceId := "A" })
        "operation_token" = some (.jstr "abc") := by
  constructor
  · exact ((c4_amended_token_propagation (initState "A")
      [("operation_token", JVal.jstr "abc")]).1 (by decide)).trans (by decide)
  · exact ((c4_amended_token_propagation
      { js := [], temp := .jfloat 25, token := .jstr "abc", applianceId := "A" }
      []).2.2.1 (by decide)).1

/-- **C5** (counterexample): `set_fan_mode` called with the label `"5"` —
which matches no value in the fan table — raises no local validation error
and does not skip the network call: `get_key` returns Python `None`, the
`None` is stored into `wind_volume`, and the write protocol still issues a
PUT whose payload carries `wind_volume: null`. -/
theorem c5_no_validation_counterexample :
    get_key FAN_MODES (.jstr "5") = .jnull
  ∧ set_fan_mode_payload
        { js := [("operation_mode", .jstr "Heating"), ("wind_volume", .jint 2),
                 ("nanoex", .jbool true), ("mystery_field", .jstr "x")],
          temp := .jfloat 25, token := .jnull, applianceId := "A" } (.jstr "5")
      = some [("operation_mode", .jstr "Heating"), ("wind_volume", .jnull),
              ("nanoex", .jbool true), ("temperature", .jstr "25.0")] := by decide

/-- **C5** (amended): a setter called with a value that has no matching
vendor key stores Python `None` (null) in the corresponding raw field and
proceeds with the write protocol — whenever the write protocol produces a
payload, that payload carries the null field; no local validation error
exists and the network call is not suppressed. -/
theorem c5_unmatched_key_stores_null (s : CState) (fan_mode : JVal)
    (h : get_key FAN_MODES fan_mode = .jnull) :
    dictLookup (set_fan_mode_pre s fan_mode).js "wind_volume" = some .jnull
  ∧ (∀ p, set_fan_mode_payload s fan_mode = some p →
        dictLookup p "wind_volume" = some .jnull) := by
  have h1 : dictLookup (set_fan_mode_pre s fan_mode).js "wind_volume" = some .jnull := by
    simp only [set_fan_mode_pre]
    rw [h, dictLookup_dictSet_self]
  refine ⟨h1, ?_⟩
  intro p hp
  simp only [set_fan_mode_payload, set_put_payload] at hp
  cases hpre : set_put_pre (set_fan_mode_pre s fan_mode) with
  | none => rw [hpre] at hp; simp at hp
  | some s1 =>
    rw [hpre] at hp
    simp only [Option.map_some', Option.some.injEq] at hp
    obtain rfl := hp
    rw [get_json_lookup_whitelisted s1 "wind_volume" (by decide) (by decide) (by decide),
        (set_put_pre_frame _ _ hpre "wind_volume" (by decide)).1]
    exact h1

/-- Witness for the amended C5: `set_fan_mode` with the unmatched label
`"nope"` on a state in mode `Nanoe` stores null and the resulting payload
carries `wind_volume: null`; the hypotheses are discharged on this input. -/
theorem c5_unmatched_key_stores_null_witness :
    dictLookup
        (set_fan_mode_pre
          { js := [("operation_mode", .jstr "Nanoe")], temp := .jfloat 25,
            token := .jnull, applianceId := "A" } (.jstr "nope")).js
        "wind_volume" = some .jnull
  ∧ dictLookup [("operation_mode", JVal.jstr "Nanoe"), ("wind_volume", JVal.jnull),
                ("temperature", JVal.jstr "0")] "wind_volume" = some .jnull := by
  constructor
  · exact (c5_unmatched_key_stores_null
      { js := [("operation_mode", .jstr "Nanoe")], temp := .jfloat 25,
        token := .jnull, applianceId := "A" } (.jstr "nope") (by decide)).1
  · exact (c5_unmatched_key_stores_null
      { js := [("operation_mode", .jstr "Nanoe")], temp := .jfloat 25,
        token := .jnull, applianceId := "A" } (.jstr "nope") (by decide)).2
      _ (by decide)

/-- **C3** (confirmed): the `temperature` field of every write payload is
the literal string `"0"` when the current `operation_mode` is not one of
{Heating, Cooling, Auto, CoolDehumidifying}; otherwise it is the cached
target clamped to [16.0, 30.0] formatted with Python `str` — so a target of
10 yields `"16.0"` and a target of 40 yields `"30.0"` (see the witness). -/
theorem c3_write_temperature_field (s s1 : CState) (m : JVal)
    (hm : dictLookup s.js "operation_mode" = some m)
    (hpre : set_put_pre s = some s1) :
    ((heatCoolModes.any fun x => pyEq m x) = false →
        dictLookup (get_json s1) "temperature" = some (.jstr "0"))
  ∧ (∀ f, (heatCoolModes.any fun x => pyEq m x) = true → pyFloat s.temp = some f →
        dictLookup (get_json s1) "temperature"
          = some (.jstr (pyStr (if f < 16 then JVal.jfloat 16
                                else if f > 30 then JVal.jfloat 30 else s.temp)))) := by
  have hw := get_json_lookup_whitelisted s1 "temperature" (by decide) (by decide) (by decide)
  have hs := set_put_pre_spec s s1 m hm hpre
  constructor
  · intro hb
    rw [hw, (hs.1 hb).2]
  · intro f hb hf
    obtain ⟨f2, hf2, htemp, hlook⟩ := hs.2 hb
    rw [hf] at hf2
    obtain rfl := Option.some.inj hf2
    rw [hw, hlook, htemp]

/-- Witness for C3, covering the three spec examples: in mode Heating a
target of 10 produces payload temperature `"16.0"`, a target of 40 produces
`"30.0"`, and in mode Nanoe (fan-only) a target of 22 produces `"0"`; the
hypotheses are discharged on these inputs. -/
theorem c3_write_temperature_field_witness :
    dictLookup (get_json { js := [("operation_mode", .jstr "Heating"),
                                  ("temperature", .jstr "16.0")],
                           temp := .jfloat 16, token := .jnull, applianceId := "A" })
        "temperature" = some (.jstr "16.0")
  ∧ dictLookup (get_json { js := [("operation_mode", .jstr "Heating"),
                                  ("temperature", .jstr "30.0")],
                           temp := .jfloat 30, token := .jnull, applianceId := "A" })
        "temperature" = some (.jstr "30.0")
  ∧ dictLookup (get_json { js := [("operation_mode", .jstr "Nanoe"),
                                  ("temperature", .jstr "0")],
                           temp := .jfloat 22, token := .jnull, applianceId := "A" })
        "temperature" = some (.jstr "0") := by
  refine ⟨?_, ?_, ?_⟩
  · exact ((c3_write_temperature_field
      { js := [("operation_mode", .jstr "Heating")], temp := .jfloat 10,
        token := .jnull, applianceId := "A" }
      { js := [("operation_mode", .jstr "Heating"), ("temperature", .jstr "16.0")],
        temp := .jfloat 16, token := .jnull, applianceId := "A" }
      (.jstr "Heating") (by decide) (by decide)).2 10 (by decide) (by decide)).trans
      (by decide)
  · exact ((c3_write_temperature_field
      { js := [("operation_mode", .jstr "Heating")], temp := .jfloat 40,
        token := .jnull, applianceId := "A" }
      { js := [("operation_mode", .jstr "Heating"), ("temperature", .jstr "30.0")],
        temp := .jfloat 30, token := .jnull, applianceId := "A" }
      (.jstr "Heating") (by decide) (by decide)).2 40 (by decide) (by decide)).trans
      (by decide)
  · exact (c3_write_temperature_field
      { js := [("operation_mode", .jstr "Nanoe")], temp := .jfloat 22,
        token := .jnull, applianceId := "A" }
      { js := [("operation_mode", .jstr "Nanoe"), ("temperature", .jstr "0")],
        temp := .jfloat 22, token := .jnull, applianceId := "A" }
      (.jstr "Nanoe") (by decide) (by decide)).1 (by decide)

/-- **C6** (confirmed): processing a successful GET (refresh) or PUT
response replaces the cached target temperature with the response's
`temperature` field unless that field is exactly the number 0 — under
Python semantics the values `== 0` are the int `0`, the float `0.0` and
`False` (Python's `bool` is an `int` subclass, so `False` *is* the number
0) — in which case the previously cached target is kept. -/
theorem c6_temperature_update_rule (s : CState) (resp : List (String × JVal)) :
    ((update_state s resp).temp =
        if dictGet resp "temperature" = .jint 0 ∨ dictGet resp "temperature" = .jfloat 0
           ∨ dictGet resp "temperature" = .jbool false
        then s.temp else dictGet resp "temperature")
  ∧ (∀ s1 s2, set_put_pre s = some s1 → set_put_step s resp = some s2 →
        s2.temp =
          if dictGet resp "temperature" = .jint 0 ∨ dictGet resp "temperature" = .jfloat 0
             ∨ dictGet resp "temperature" = .jbool false
          then s1.temp else dictGet resp "temperature") := by
  have key : ∀ t : CState,
      (set_json t resp).temp =
        if dictGet resp "temperature" = .jint 0 ∨ dictGet resp "temperature" = .jfloat 0
           ∨ dictGet resp "temperature" = .jbool false
        then t.temp else dictGet resp "temperature" := by
    intro t
    by_cases hz : pyEq (dictGet resp "temperature") (.jint 0) = true
    · have hcond := (pyEq_jint_zero_iff _).mp hz
      simp [set_json, hz, hcond]
    · have hcond : ¬(dictGet resp "temperature" = .jint 0
          ∨ dictGet resp "temperature" = .jfloat 0
          ∨ dictGet resp "temperature" = .jbool false) :=
        fun hc => hz ((pyEq_jint_zero_iff _).mpr hc)
      simp [set_json, hz, hcond]
  constructor
  · exact key s
  · intro s1 s2 hpre hstep
    simp only [set_put_step, hpre, Option.map_some', Option.some.injEq] at hstep
    obtain rfl := hstep
    exact key s1

/-- Witness for C6: a PUT round trip in mode Nanoe whose response carries
`temperature: 0` keeps the cached target 22.0; the hypotheses are
discharged on this input. -/
theorem c6_temperature_update_rule_witness :
    (set_json { js := [("operation_mode", .jstr "Nanoe"), ("temperature", .jstr "0")],
                temp := .jfloat 22, token := .jnull, applianceId := "A" }
       [("temperature", JVal.jint 0)]).temp = .jfloat 22 := by
  have h := (c6_temperature_update_rule
      { js := [("operation_mode", .jstr "Nanoe")], temp := .jfloat 22,
        token := .jnull, applianceId := "A" } [("temperature", JVal.jint 0)]).2
      { js := [("operation_mode", .jstr "Nanoe"), ("temperature", .jstr "0")],
        temp := .jfloat 22, token := .jnull, applianceId := "A" }
      (set_json { js := [("operation_mode", .jstr "Nanoe"), ("temperature", .jstr "0")],
                  temp := .jfloat 22, token := .jnull, applianceId := "A" }
         [("temperature", JVal.jint 0)])
      (by decide) (by decide)
  exact h.trans (by decide)

/-- **C9** (confirmed): only values Python-equal to the number 0 are the
do-not-overwrite sentinel of `_set_json`.  In particular a response without
any `temperature` key overwrites the cached target with `None`, a response
with the string `"0"` overwrites it with the string `"0"`, any value not
`== 0` overwrites it with that value, and the numbers `0` / `0.0` keep it. -/
theorem c9_overwrite_unless_numeric_zero (s : CState) (resp : List (String × JVal)) :
    (containsKey resp "temperature" = false → (update_state s resp).temp = .jnull)
  ∧ (dictGet resp "temperature" = .jstr "0" → (update_state s resp).temp = .jstr "0")
  ∧ (∀ v, pyEq v (.jint 0) = false →
        (update_state s (dictSet resp "temperature" v)).temp = v)
  ∧ ((dictGet resp "temperature" = .jint 0 ∨ dictGet resp "temperature" = .jfloat 0) →
        (update_state s resp).temp = s.temp) := by
  refine ⟨?_, ?_, ?_, ?_⟩
  · intro h
    rw [containsKey] at h
    cases hl : dictLookup resp "temperature" with
    | some v => rw [hl] at h; simp at h
    | none =>
      have hget : dictGet resp "temperature" = .jnull := by simp [dictGet, hl]
      simp [update_state, set_json, hget, pyEq, pyNum]
  · intro h
    simp [update_state, set_json, h, pyEq, pyNum]
  · intro v hv
    have hget : dictGet (dictSet resp "temperature" v) "temperature" = v := by
      simp [dictGet, dictLookup_dictSet_self]
    simp [update_state, set_json, hget, hv]
  · intro h
    have hz : pyEq (dictGet resp "temperature") (.jint 0) = true :=
      (pyEq_jint_zero_iff _).mpr (h.elim Or.inl (fun b => Or.inr (Or.inl b)))
    simp [update_state, set_json, hz]

/-- Witness for C9: a response without a `temperature` key overwrites the
cached target with `None`, and a response with the string `"0"` overwrites
it with `"0"`; the hypotheses are discharged on these inputs. -/
theorem c9_overwrite_unless_numeric_zero_witness :
    (update_state { js := [], temp := .jfloat 22, token := .jnull, applianceId := "A" }
        [("operation_mode", .jstr "Nanoe")]).temp = .jnull
  ∧ (update_state { js := [], temp := .jfloat 22, token := .jnull, applianceId := "A" }
        [("temperature", .jstr "0")]).temp = .jstr "0" := by
  constructor
  · exact (c9_overwrite_unless_numeric_zero
      { js := [], temp := .jfloat 22, token := .jnull, applianceId := "A" }
      [("operation_mode", .jstr "Nanoe")]).1 (by decide)
  · exact (c9_overwrite_unless_numeric_zero
      { js := [], temp := .jfloat 22, token := .jnull, applianceId := "A" }
      [("temperature", .jstr "0")]).2.1 (by decide)

/-- **C10** (confirmed): turning the HVAC mode Off mutates only the
`operation_status` field of the cached JSON (to `False`) before entering
the write protocol — every other cached field, the cached target and the
cached token are unchanged, in particular `operation_mode`, so the write
payload still carries the vendor mode key from before the off command. -/
theorem c10_off_only_operation_status (s : CState) :
    (∀ k, k ≠ "operation_status" →
        dictLookup (set_hvac_mode_pre s (.jstr "off")).js k = dictLookup s.js k)
  ∧ dictLookup (set_hvac_mode_pre s (.jstr "off")).js "operation_status"
      = some (.jbool false)
  ∧ (set_hvac_mode_pre s (.jstr "off")).temp = s.temp
  ∧ (set_hvac_mode_pre s (.jstr "off")).token = s.token
  ∧ (∀ p, set_put_payload (set_hvac_mode_pre s (.jstr "off")) = some p →
        dictLookup p "operation_mode" = dictLookup s.js "operation_mode") := by
  have hoff : set_hvac_mode_pre s (.jstr "off")
      = { s with js := dictSet s.js "operation_status" (.jbool false) } := by
    simp only [set_hvac_mode_pre]
    rw [if_pos (by decide : pyEq (JVal.jstr "off") (.jstr "off") = true)]
  refine ⟨?_, ?_, ?_, ?_, ?_⟩
  · intro k hk
    rw [hoff]
    exact dictLookup_dictSet_ne _ _ _ _ (Ne.symm hk)
  · rw [hoff]
    exact dictLookup_dictSet_self _ _ _
  · rw [hoff]
  · rw [hoff]
  · intro p hp
    simp only [set_put_payload] at hp
    cases hpre : set_put_pre (set_hvac_mode_pre s (.jstr "off")) with
    | none => rw [hpre] at hp; simp at hp
    | some s1 =>
      rw [hpre] at hp
      simp only [Option.map_some', Option.some.injEq] at hp
      obtain rfl := hp
      rw [get_json_lookup_whitelisted s1 "operation_mode" (by decide) (by decide) (by decide),
          (set_put_pre_frame _ _ hpre "operation_mode" (by decide)).1, hoff]
      exact dictLookup_dictSet_ne _ _ _ _ (by decide)

/-- Witness for C10: turning Off from mode Heating leaves `operation_mode`
untouched and the resulting payload still carries `"Heating"`; the
hypotheses are discharged on this input. -/
theorem c10_off_only_operation_status_witness :
    dictLookup
        (set_hvac_mode_pre
          { js := [("operation_mode", .jstr "Heating"), ("operation_status", .jbool true)],
            temp := .jfloat 25, token := .jnull, applianceId := "A" } (.jstr "off")).js
        "operation_mode" = some (.jstr "Heating")
  ∧ dictLookup [("operation_mode", JVal.jstr "Heating"),
                ("operation_status", JVal.jbool false),
                ("temperature", JVal.jstr "25.0")] "operation_mode"
      = some (.jstr "Heating") := by
  constructor
  · exact ((c10_off_only_operation_status
      { js := [("operation_mode", .jstr "Heating"), ("operation_status", .jbool true)],
        temp := .jfloat 25, token := .jnull, applianceId := "A" }).1
      "operation_mode" (by decide)).trans (by decide)
  · exact ((c10_off_only_operation_status
      { js := [("operation_mode", .jstr "Heating"), ("operation_status", .jbool true)],
        temp := .jfloat 25, token := .jnull, applianceId := "A" }).2.2.2.2
      _ (by decide)).trans (by decide)
